import Mathlib

/-!
Verification of the staged node-builder and lifecycle-bootstrap layer of the
`hetu-project/reth` repository, together with the Narwhal consensus stub.

The Rust sources embedded here:
  * `crates/node-builder/src/builder.rs` — the typestate `NodeBuilder<DB, State>`
    with states `InitState`, `TypesState`, `ComponentsState`, its stage
    transitions (`with_types`, `with_components`, `launch`), the in-stage
    registration operations (`map_components`, hook setters, `install_exex`),
    `load_config`, and `check_launch`.
  * `crates/node-builder/src/components/traits.rs` — the `LaunchNode` contract.
  * `crates/consensus/narwhal/src/lib.rs` — `NarwhalConsensus`.

The hook-registry internals (`NodeHooks`, `RpcHooks`) and the default launcher
are declared and used by these files but their defining modules are not among
the provided sources; they are modelled from the specification and marked as
such in their doc comments.

Opaque collaborator values (databases, component builders, callbacks,
extensions) are abstracted by type parameters; pure data the code actually
inspects (config fields, peer lists) is embedded concretely.
-/

namespace Reth

variable {DB D T C H E State : Type}

/-! ## Configuration data model (`NodeConfig`, `reth_config::Config`) -/

/-- Peers are opaque identities; only equality is used (`HashSet` membership). -/
abbrev Peer := Nat

/-- Filesystem paths are opaque tokens; `load_config` only threads them through. -/
abbrev ConfigPath := Nat

/-- Data directory token; `data_dir.config_path()` is modelled as the token itself. -/
abbrev DataDir := Nat

/-- The network section of `NodeConfig` — only the fields `load_config` reads. -/
structure NetworkArgs where
  trusted_only : Bool
  trusted_peers : List Peer
deriving DecidableEq, Repr

/-- `NodeConfig`: the externally supplied settings object owned by the builder.
Only the fields read by the embedded code are kept. -/
structure NodeConfig where
  config : Option ConfigPath
  network : NetworkArgs
deriving DecidableEq, Repr

/-- The `peers` section of `reth_config::Config`. -/
structure PeersConfig where
  trusted_nodes_only : Bool
  trusted_nodes : List Peer
deriving DecidableEq, Repr

/-- `reth_config::Config` as far as `load_config` touches it. -/
structure RethConfig where
  peers : PeersConfig
deriving DecidableEq, Repr

/-- Error from `confy::load_path` (wrapped by `eyre`); opaque. -/
abbrev LoadErr := Nat

/-- `HashSet::insert` on the trusted-node set: add the peer unless present. -/
def insertPeer (ns : List Peer) (p : Peer) : List Peer :=
  if p ∈ ns then ns else ns ++ [p]

/-! ## Hook registries

`builder.rs` stores a `NodeHooks` and an `RpcHooks` value in `ComponentsState`
and mutates them through `set_on_component_initialized`, `set_on_node_started`,
`set_on_rpc_started` and `set_extend_rpc_modules`.  The modules defining these
two types are not among the provided sources, so they are modelled from the
specification. -/

/-- Modelled from the spec: `NodeHooks` (its defining module is not in the
provided sources).  "A fixed-size set of optional callback slots; each slot
either empty or holds exactly one callback.  Registering into a slot overwrites
the holder."  Slots owned by `NodeHooks`: component-initialized, node-started. -/
structure NodeHooks (H : Type) where
  on_component_initialized : Option H
  on_node_started : Option H
deriving DecidableEq, Repr

/-- Modelled from the spec: `NodeHooks::new()` starts with every slot empty. -/
def NodeHooks.new : NodeHooks H := ⟨none, none⟩

/-- Modelled from the spec: registering overwrites the slot (last writer wins). -/
def NodeHooks.set_on_component_initialized (h : NodeHooks H) (c : H) : NodeHooks H :=
  { h with on_component_initialized := some c }

/-- Modelled from the spec: registering overwrites the slot (last writer wins). -/
def NodeHooks.set_on_node_started (h : NodeHooks H) (c : H) : NodeHooks H :=
  { h with on_node_started := some c }

/-- Modelled from the spec: `RpcHooks` (its defining module is not in the
provided sources).  Slots owned by `RpcHooks`: rpc-started, rpc-extend. -/
structure RpcHooks (H : Type) where
  on_rpc_started : Option H
  extend_rpc_modules : Option H
deriving DecidableEq, Repr

/-- Modelled from the spec: `RpcHooks::new()` starts with every slot empty. -/
def RpcHooks.new : RpcHooks H := ⟨none, none⟩

/-- Modelled from the spec: registering overwrites the slot (last writer wins). -/
def RpcHooks.set_on_rpc_started (h : RpcHooks H) (c : H) : RpcHooks H :=
  { h with on_rpc_started := some c }

/-- Modelled from the spec: registering overwrites the slot (last writer wins). -/
def RpcHooks.set_extend_rpc_modules (h : RpcHooks H) (c : H) : RpcHooks H :=
  { h with extend_rpc_modules := some c }

/-! ## Builder states (`builder.rs` lines 973–1005) -/

/-- `InitState`: the initial state of the node builder process. -/
structure InitState where
deriving DecidableEq, Repr

/-- `FullNodeTypesAdapter`: wraps the configured node types. -/
structure FullNodeTypesAdapter (T : Type) where
  types : T

/-- `TypesState`: the state after the node's types have been configured. -/
structure TypesState (T : Type) where
  adapter : FullNodeTypesAdapter T

/-- `ComponentsState`: the state after the node's components have been
configured; also carries hooks, rpc hooks and the execution extensions. -/
structure ComponentsState (T C H E : Type) where
  types : T
  components_builder : C
  hooks : NodeHooks H
  rpc : RpcHooks H
  exexs : List E

/-- `NodeBuilder<DB, State>` with fields `config`, `state`, `database`. -/
structure NodeBuilder (DB State : Type) where
  config : NodeConfig
  state : State
  database : DB

/-! ## Builder operations (`builder.rs`) -/

/-- `NodeBuilder::new(config)`: builder with unit database in `InitState`. -/
def NodeBuilder.new (config : NodeConfig) : NodeBuilder Unit InitState :=
  { config := config, database := (), state := ⟨⟩ }

/-- `NodeBuilder::with_database` (only in `InitState`): swap in a database. -/
def NodeBuilder.with_database (self : NodeBuilder DB InitState) (database : D) :
    NodeBuilder D InitState :=
  { config := self.config, state := self.state, database := database }

/-- `NodeBuilder::with_types` (lines 229–238, only in `InitState`):
`InitState → TypesState`. -/
def NodeBuilder.with_types (self : NodeBuilder DB InitState) (types : T) :
    NodeBuilder DB (TypesState T) :=
  { config := self.config, state := { adapter := { types := types } },
    database := self.database }

/-- `NodeBuilder::with_components` (lines 284–314, only in `TypesState`):
`TypesState → ComponentsState`, with fresh empty hook registries and an empty
extension list. -/
def NodeBuilder.with_components {H E : Type} (self : NodeBuilder DB (TypesState T))
    (components_builder : C) : NodeBuilder DB (ComponentsState T C H E) :=
  { config := self.config, database := self.database,
    state := { types := self.state.adapter.types,
               components_builder := components_builder,
               hooks := NodeHooks.new, rpc := RpcHooks.new, exexs := [] } }

/-- `NodeBuilder::map_components` (lines 351–363, only in `ComponentsState`):
apply a function to the components builder, everything else untouched. -/
def NodeBuilder.map_components (self : NodeBuilder DB (ComponentsState T C H E))
    (f : C → C) : NodeBuilder DB (ComponentsState T C H E) :=
  { config := self.config, database := self.database,
    state := { types := self.state.types,
               components_builder := f self.state.components_builder,
               hooks := self.state.hooks, rpc := self.state.rpc,
               exexs := self.state.exexs } }

/-- `NodeBuilder::on_component_initialized` (lines 366–379). -/
def NodeBuilder.on_component_initialized (self : NodeBuilder DB (ComponentsState T C H E))
    (hook : H) : NodeBuilder DB (ComponentsState T C H E) :=
  { self with state :=
      { self.state with hooks := self.state.hooks.set_on_component_initialized hook } }

/-- `NodeBuilder::on_node_started` (lines 382–397). -/
def NodeBuilder.on_node_started (self : NodeBuilder DB (ComponentsState T C H E))
    (hook : H) : NodeBuilder DB (ComponentsState T C H E) :=
  { self with state :=
      { self.state with hooks := self.state.hooks.set_on_node_started hook } }

/-- `NodeBuilder::on_rpc_started` (lines 400–417). -/
def NodeBuilder.on_rpc_started (self : NodeBuilder DB (ComponentsState T C H E))
    (hook : H) : NodeBuilder DB (ComponentsState T C H E) :=
  { self with state :=
      { self.state with rpc := self.state.rpc.set_on_rpc_started hook } }

/-- `NodeBuilder::extend_rpc_modules` (lines 420–436). -/
def NodeBuilder.extend_rpc_modules (self : NodeBuilder DB (ComponentsState T C H E))
    (hook : H) : NodeBuilder DB (ComponentsState T C H E) :=
  { self with state :=
      { self.state with rpc := self.state.rpc.set_extend_rpc_modules hook } }

/-- `NodeBuilder::install_exex` (lines 439–456): push onto the extension list. -/
def NodeBuilder.install_exex (self : NodeBuilder DB (ComponentsState T C H E))
    (exex : E) : NodeBuilder DB (ComponentsState T C H E) :=
  { self with state := { self.state with exexs := self.state.exexs ++ [exex] } }

/-- `NodeBuilder::check_launch` (lines 528–530): returns `self`. -/
def NodeBuilder.check_launch (self : NodeBuilder DB (ComponentsState T C H E)) :
    NodeBuilder DB (ComponentsState T C H E) :=
  self

/-- `NodeBuilder::load_config` (lines 160–182).  The call to
`confy::load_path` is an external effect and is passed in as the function
`confy_load`; `data_dir.config_path()` is the `data_dir` token.  The method
takes `&self`, so the embedding threads the receiver through unchanged. -/
def NodeBuilder.load_config (self : NodeBuilder DB State) (data_dir : DataDir)
    (confy_load : ConfigPath → Except LoadErr RethConfig) :
    NodeBuilder DB State × Except LoadErr RethConfig :=
  let config_path := self.config.config.getD data_dir
  match confy_load config_path with
  | .error e => (self, .error e)
  | .ok c0 =>
    let c1 : RethConfig :=
      { c0 with peers :=
          { c0.peers with trusted_nodes_only := self.config.network.trusted_only } }
    let c2 : RethConfig :=
      if self.config.network.trusted_peers.isEmpty then c1
      else
        { c1 with peers :=
            { c1.peers with trusted_nodes :=
                (self.config.network.trusted_peers.foldl insertPeer
                  c1.peers.trusted_nodes) } }
    (self, .ok c2)

/-! ## `WithLaunchContext` (`builder.rs` lines 537–822) -/

/-- The task executor is an opaque handle. -/
abbrev TaskExecutor := Nat

/-- `WithLaunchContext<DB, State>`: a `NodeBuilder` plus executor and datadir. -/
structure WithLaunchContext (DB State : Type) where
  builder : NodeBuilder DB State
  task_executor : TaskExecutor
  data_dir : DataDir

/-- `WithLaunchContext::check_launch` (lines 819–821): returns `self`. -/
def WithLaunchContext.check_launch
    (self : WithLaunchContext DB (ComponentsState T C H E)) :
    WithLaunchContext DB (ComponentsState T C H E) :=
  self

/-! ## Dynamic view of the typestate machine

In Rust the stage discipline is enforced statically: `with_types` is defined
only in the `impl` block for `NodeBuilder<DB, InitState>`, `with_components`
only for `TypesState`, and the registration operations and `launch` only for
`ComponentsState`; every transition takes `self` by value.  The dynamic view
below sums the three typed builders (plus a terminal `launched` marker, the
builder having been consumed by value) and exposes each operation as a partial
function that is defined exactly where the corresponding Rust method exists. -/

/-- The stages of the builder state machine. -/
inductive Stage where
  | uninitialized
  | typesBound
  | componentsBound
  | launched
deriving DecidableEq, Repr

/-- A builder in any stage.  `launched` carries no builder: `launch` takes the
builder by value, so no builder value remains afterwards. -/
inductive AnyBuilder (DB T C H E : Type) where
  | uninitialized (b : NodeBuilder DB InitState)
  | typesBound (b : NodeBuilder DB (TypesState T))
  | componentsBound (b : NodeBuilder DB (ComponentsState T C H E))
  | launched

/-- The stage a builder currently occupies. -/
def AnyBuilder.stage : AnyBuilder DB T C H E → Stage
  | .uninitialized _ => .uninitialized
  | .typesBound _ => .typesBound
  | .componentsBound _ => .componentsBound
  | .launched => .launched

/-- One registration operation available in the components-configured stage. -/
inductive RegOp (C H E : Type) where
  | onComponentInitialized (hook : H)
  | onNodeStarted (hook : H)
  | onRpcStarted (hook : H)
  | extendRpcModules (hook : H)
  | installExex (exex : E)
  | mapComponents (f : C → C)

/-- Dispatch a registration operation to the corresponding builder method. -/
def applyReg (b : NodeBuilder DB (ComponentsState T C H E)) :
    RegOp C H E → NodeBuilder DB (ComponentsState T C H E)
  | .onComponentInitialized h => b.on_component_initialized h
  | .onNodeStarted h => b.on_node_started h
  | .onRpcStarted h => b.on_rpc_started h
  | .extendRpcModules h => b.extend_rpc_modules h
  | .installExex e => b.install_exex e
  | .mapComponents f => b.map_components f

/-- `with_types`, attempted on a builder in an arbitrary stage: defined only
where the Rust method exists (`InitState`). -/
def AnyBuilder.tryWithTypes (b : AnyBuilder DB T C H E) (t : T) :
    Option (AnyBuilder DB T C H E) :=
  match b with
  | .uninitialized nb => some (.typesBound (nb.with_types t))
  | _ => none

/-- `with_components`, attempted on a builder in an arbitrary stage: defined
only where the Rust method exists (`TypesState`). -/
def AnyBuilder.tryWithComponents (b : AnyBuilder DB T C H E) (c : C) :
    Option (AnyBuilder DB T C H E) :=
  match b with
  | .typesBound nb => some (.componentsBound (nb.with_components c))
  | _ => none

/-- A registration operation, attempted on a builder in an arbitrary stage:
defined only where the Rust methods exist (`ComponentsState`). -/
def AnyBuilder.tryRegister (b : AnyBuilder DB T C H E) (op : RegOp C H E) :
    Option (AnyBuilder DB T C H E) :=
  match b with
  | .componentsBound nb => some (.componentsBound (applyReg nb op))
  | _ => none

/-- `launch`, attempted on a builder in an arbitrary stage: defined only where
the Rust method exists (`ComponentsState`); it consumes the builder. -/
def AnyBuilder.tryLaunch (b : AnyBuilder DB T C H E) :
    Option (AnyBuilder DB T C H E) :=
  match b with
  | .componentsBound _ => some .launched
  | _ => none

/-! ## Launch orchestration

`launch` delegates to a value implementing the `LaunchNode` trait
(`components/traits.rs` lines 159–205); the default launcher's definition is
not among the provided sources, so the orchestration sequence is modelled from
the specification (§4.3–§4.5).  A registered callback is abstracted by the
result it returns when invoked; an extension by the result of its setup phase. -/

/-- Error returned by a hook callback; opaque. -/
abbrev HookErr := Nat

/-- Error from a component factory; opaque. -/
abbrev BuildErr := Nat

/-- Error from an extension's setup phase; opaque. -/
abbrev ExtErr := Nat

/-- The outcome a registered hook callback produces when invoked. -/
abbrev HookOutcome := Except HookErr Unit

/-- `LaunchError`: wraps a component-build failure or a hook failure. -/
inductive LaunchErr where
  | build (e : BuildErr)
  | hook (e : HookErr)
deriving DecidableEq, Repr

/-- The four lifecycle event slots. -/
inductive Slot where
  | componentInitialized
  | rpcExtend
  | rpcStarted
  | nodeStarted
deriving DecidableEq, Repr

/-- An observable event of the launch sequence: a registered hook callback was
invoked at a slot, or the extension with the given registration index was
spawned. -/
inductive Ev where
  | hookFired (s : Slot)
  | exSpawned (i : Nat)
deriving DecidableEq, Repr

/-- The fixed firing order of the four lifecycle slots. -/
def firingOrder : List Slot :=
  [.componentInitialized, .rpcExtend, .rpcStarted, .nodeStarted]

/-- The slots strictly before `s` in the firing order. -/
def slotsBefore : Slot → List Slot
  | .componentInitialized => []
  | .rpcExtend => [.componentInitialized]
  | .rpcStarted => [.componentInitialized, .rpcExtend]
  | .nodeStarted => [.componentInitialized, .rpcExtend, .rpcStarted]

/-- The slots strictly after `s` in the firing order. -/
def slotsAfter : Slot → List Slot
  | .componentInitialized => [.rpcExtend, .rpcStarted, .nodeStarted]
  | .rpcExtend => [.rpcStarted, .nodeStarted]
  | .rpcStarted => [.nodeStarted]
  | .nodeStarted => []

/-- The callback registered for a slot, read from the two registries: the
node hooks own component-initialized and node-started, the rpc hooks own
rpc-extend and rpc-started. -/
def slotCallback (hooks : NodeHooks HookOutcome) (rpc : RpcHooks HookOutcome) :
    Slot → Option HookOutcome
  | .componentInitialized => hooks.on_component_initialized
  | .rpcExtend => rpc.extend_rpc_modules
  | .rpcStarted => rpc.on_rpc_started
  | .nodeStarted => hooks.on_node_started

/-- Modelled from the spec: firing a sequence of hook slots (§4.3).  "Slots
without a registered callback are simply skipped (no-op, not an error)"; a
callback that returns an error aborts the remainder of the sequence and the
error is surfaced.  Returns the invocation trace and the first error, if any. -/
def runHooks (cb : Slot → Option HookOutcome) : List Slot → List Ev × Option HookErr
  | [] => ([], none)
  | s :: rest =>
    match cb s with
    | none => runHooks cb rest
    | some (.ok _) =>
      let p := runHooks cb rest
      (.hookFired s :: p.1, p.2)
    | some (.error e) => ([.hookFired s], some e)

/-- Modelled from the spec: the default launcher (§4.5); its defining module is
not among the provided sources.  In order: build the components (failure aborts
with a `BuildError`, no hooks fire), fire the four hook slots in the fixed
firing order (a hook failure aborts, surfacing the error), then spawn every
registered extension once, in registration order, after `node-started`
(§4.4, §8: extensions are spawned after `node-started` fires; an extension's
setup outcome never affects whether the others are spawned).  Returns the
event trace together with the launch result. -/
def defaultLaunch (buildResult : Except BuildErr Unit)
    (hooks : NodeHooks HookOutcome) (rpc : RpcHooks HookOutcome)
    (exexs : List (Except ExtErr Unit)) : List Ev × Except LaunchErr Unit :=
  match buildResult with
  | .error e => ([], .error (.build e))
  | .ok _ =>
    let p := runHooks (slotCallback hooks rpc) firingOrder
    match p.2 with
    | some e => (p.1, .error (.hook e))
    | none => (p.1 ++ (List.range exexs.length).map Ev.exSpawned, .ok ())

/-- The slot of a hook-invocation event, if the event is one. -/
def evSlot : Ev → Option Slot
  | .hookFired s => some s
  | .exSpawned _ => none

/-- The subtrace of hook invocations, as a list of slots. -/
def hookTrace (t : List Ev) : List Slot :=
  t.filterMap evSlot

/-! ## Registration sequences over the hook registries -/

/-- Apply one hook registration to a components-configured builder, through
the builder method owning that slot. -/
def applyHookReg (b : NodeBuilder DB (ComponentsState T C H E)) :
    Slot × H → NodeBuilder DB (ComponentsState T C H E)
  | (.componentInitialized, h) => b.on_component_initialized h
  | (.rpcExtend, h) => b.extend_rpc_modules h
  | (.rpcStarted, h) => b.on_rpc_started h
  | (.nodeStarted, h) => b.on_node_started h

/-- Apply a sequence of hook registrations in order. -/
def applyHookRegs (b : NodeBuilder DB (ComponentsState T C H E))
    (regs : List (Slot × H)) : NodeBuilder DB (ComponentsState T C H E) :=
  regs.foldl applyHookReg b

/-- The callback a components-configured builder holds for a slot. -/
def getHook (b : NodeBuilder DB (ComponentsState T C H E)) : Slot → Option H
  | .componentInitialized => b.state.hooks.on_component_initialized
  | .rpcExtend => b.state.rpc.extend_rpc_modules
  | .rpcStarted => b.state.rpc.on_rpc_started
  | .nodeStarted => b.state.hooks.on_node_started

/-! ## Narwhal consensus stub (`crates/consensus/narwhal/src/lib.rs`) -/

/-- Sealed headers are opaque to the stub. -/
abbrev SealedHeader := Nat

/-- Unsealed headers are opaque to the stub. -/
abbrev Header := Nat

/-- Total difficulty (`U256`); opaque to the stub. -/
abbrev U256 := Nat

/-- Sealed blocks are opaque to the stub. -/
abbrev SealedBlock := Nat

/-- Recovered blocks are opaque to the stub. -/
abbrev BlockWithSenders := Nat

/-- Post-execution input is opaque to the stub. -/
abbrev PostExecutionInput := Nat

/-- Consensus errors; the stub never constructs one. -/
abbrev ConsensusError := Nat

/-- `NarwhalConsensus<ChainSpec>` (lines 44–47). -/
structure NarwhalConsensus (ChainSpec : Type) where
  chain_spec : ChainSpec

/-- `NarwhalConsensus::new` (lines 51–53). -/
def NarwhalConsensus.new {CS : Type} (chain_spec : CS) : NarwhalConsensus CS :=
  { chain_spec := chain_spec }

/-- `Consensus::validate_header` for `NarwhalConsensus` (lines 57–59). -/
def NarwhalConsensus.validate_header {CS : Type} (_self : NarwhalConsensus CS)
    (_header : SealedHeader) : Except ConsensusError Unit :=
  .ok ()

/-- `Consensus::validate_header_against_parent` (lines 61–67). -/
def NarwhalConsensus.validate_header_against_parent {CS : Type}
    (_self : NarwhalConsensus CS) (_header _parent : SealedHeader) :
    Except ConsensusError Unit :=
  .ok ()

/-- `Consensus::validate_header_with_total_difficulty` (lines 69–75). -/
def NarwhalConsensus.validate_header_with_total_difficulty {CS : Type}
    (_self : NarwhalConsensus CS) (_header : Header) (_total_difficulty : U256) :
    Except ConsensusError Unit :=
  .ok ()

/-- `Consensus::validate_block_pre_execution` (lines 77–79). -/
def NarwhalConsensus.validate_block_pre_execution {CS : Type}
    (_self : NarwhalConsensus CS) (_block : SealedBlock) :
    Except ConsensusError Unit :=
  .ok ()

/-- `Consensus::validate_block_post_execution` (lines 81–87). -/
def NarwhalConsensus.validate_block_post_execution {CS : Type}
    (_self : NarwhalConsensus CS) (_block : BlockWithSenders)
    (_input : PostExecutionInput) : Except ConsensusError Unit :=
  .ok ()

/-! ## Helper lemmas -/

/-- If no hook in a slot sequence errors, the invocation trace is exactly the
registered slots in sequence order. -/
theorem runHooks_trace_of_no_error (cb : Slot → Option HookOutcome)
    (slots : List Slot) (h : (runHooks cb slots).2 = none) :
    (runHooks cb slots).1 = (slots.filter fun s => (cb s).isSome).map Ev.hookFired := by
  induction slots with
  | nil => rfl
  | cons s rest ih =>
    cases hcb : cb s with
    | none =>
      simp only [runHooks, hcb] at h ⊢
      simpa [hcb] using ih h
    | some r =>
      cases r with
      | ok u =>
        simp only [runHooks, hcb] at h ⊢
        simpa [hcb] using ih h
      | error e => simp [runHooks, hcb] at h

/-- A callback outcome that is never an error is absent or a success. -/
theorem hookOutcome_shape (o : Option HookOutcome)
    (h : ∀ e, o ≠ some (.error e)) : o = none ∨ o = some (.ok ()) := by
  match o with
  | none => exact .inl rfl
  | some (.ok ()) => exact .inr rfl
  | some (.error e) => exact absurd rfl (h e)

/-- If no registered callback errors, the launch sequence succeeds. -/
theorem launch_ok_of_no_error (hooks : NodeHooks HookOutcome)
    (rpc : RpcHooks HookOutcome) (exexs : List (Except ExtErr Unit))
    (h : ∀ s e, slotCallback hooks rpc s ≠ some (.error e)) :
    (defaultLaunch (.ok ()) hooks rpc exexs).2 = .ok () := by
  have h1 := hookOutcome_shape _ (h .componentInitialized)
  have h2 := hookOutcome_shape _ (h .rpcExtend)
  have h3 := hookOutcome_shape _ (h .rpcStarted)
  have h4 := hookOutcome_shape _ (h .nodeStarted)
  rcases h1 with h1 | h1 <;> rcases h2 with h2 | h2 <;> rcases h3 with h3 | h3 <;>
    rcases h4 with h4 | h4 <;>
    simp [defaultLaunch, firingOrder, runHooks, h1, h2, h3, h4]

/-- The hook subtrace of a pure hook-firing trace. -/
theorem hookTrace_map_hookFired (l : List Slot) :
    hookTrace (l.map Ev.hookFired) = l := by
  induction l with
  | nil => rfl
  | cons x xs ih => simp [hookTrace, evSlot, List.filterMap_cons] at ih ⊢; exact ih

/-- Extension-spawn events contribute nothing to the hook subtrace. -/
theorem hookTrace_map_exSpawned (l : List Nat) :
    hookTrace (l.map Ev.exSpawned) = [] := by
  induction l with
  | nil => rfl
  | cons x xs ih =>
    rw [List.map_cons, hookTrace, List.filterMap_cons]
    simp only [evSlot]
    exact ih

/-- The hook subtrace distributes over concatenation. -/
theorem hookTrace_append (a b : List Ev) :
    hookTrace (a ++ b) = hookTrace a ++ hookTrace b :=
  List.filterMap_append a b evSlot

/-- Registering touches exactly the slot addressed by the registration. -/
theorem getHook_applyHookReg (b : NodeBuilder DB (ComponentsState T C H E))
    (s e : Slot) (h : H) :
    getHook (applyHookReg b (s, h)) e = if s = e then some h else getHook b e := by
  cases s <;> cases e <;>
    simp [applyHookReg, getHook, NodeBuilder.on_component_initialized,
      NodeBuilder.on_node_started, NodeBuilder.on_rpc_started,
      NodeBuilder.extend_rpc_modules, NodeHooks.set_on_component_initialized,
      NodeHooks.set_on_node_started, RpcHooks.set_on_rpc_started,
      RpcHooks.set_extend_rpc_modules]

/-! ## Claim theorems -/

/-- Claim C1: stage transitions are guarded by their required predecessor.
`with_types` succeeds exactly on a builder in the initial state and yields the
types-bound stage; `with_components` succeeds exactly on a types-bound builder
and yields the components-bound stage; registration operations succeed exactly
on a components-bound builder without advancing the stage; `launch` succeeds
exactly on a components-bound builder.  In every other stage the operation is
rejected (`none`, the Rust method does not exist there), never silently
ignored; no stage is skipped or revisited. -/
theorem stage_transition_discipline (b : AnyBuilder DB T C H E) (t : T) (c : C)
    (op : RegOp C H E) :
    ((b.tryWithTypes t).map AnyBuilder.stage =
        if b.stage = .uninitialized then some .typesBound else none) ∧
    ((b.tryWithComponents c).map AnyBuilder.stage =
        if b.stage = .typesBound then some .componentsBound else none) ∧
    ((b.tryRegister op).map AnyBuilder.stage =
        if b.stage = .componentsBound then some .componentsBound else none) ∧
    (b.tryLaunch.map AnyBuilder.stage =
        if b.stage = .componentsBound then some .launched else none) := by
  cases b <;>
    simp [AnyBuilder.tryWithTypes, AnyBuilder.tryWithComponents,
      AnyBuilder.tryRegister, AnyBuilder.tryLaunch, AnyBuilder.stage]

/-- Claim C2: `launch` consumes the builder, so launching twice is impossible:
composing `tryLaunch` with itself never succeeds, whatever the starting
builder. -/
theorem launch_consumes_builder (b : AnyBuilder DB T C H E) :
    (b.tryLaunch.bind AnyBuilder.tryLaunch) = none := by
  cases b <;> rfl

/-- Claim C7: every validation operation of `NarwhalConsensus` returns `Ok(())`
on every input; the consensus component is an always-succeed no-op stub. -/
theorem narwhal_consensus_always_ok {CS : Type} (c : NarwhalConsensus CS)
    (h p : SealedHeader) (hd : Header) (td : U256) (blk : SealedBlock)
    (bws : BlockWithSenders) (inp : PostExecutionInput) :
    c.validate_header h = .ok () ∧
    c.validate_header_against_parent h p = .ok () ∧
    c.validate_header_with_total_difficulty hd td = .ok () ∧
    c.validate_block_pre_execution blk = .ok () ∧
    c.validate_block_post_execution bws inp = .ok () :=
  ⟨rfl, rfl, rfl, rfl, rfl⟩

/-- Claim C8: the registration operations of the components-configured stage
mutate the builder in place without advancing the stage: `map_components`
replaces only the components builder with the transform applied to it,
`install_exex` changes only the extension list (appending), each hook setter
changes only its own registry, and config, database, types and all untouched
registries are unchanged; the stage stays components-bound. -/
theorem registration_ops_preserve_frame (b : NodeBuilder DB (ComponentsState T C H E))
    (f : C → C) (x : E) (h1 h2 h3 h4 : H) (op : RegOp C H E) :
    ((b.map_components f).config = b.config ∧
     (b.map_components f).database = b.database ∧
     (b.map_components f).state.types = b.state.types ∧
     (b.map_components f).state.hooks = b.state.hooks ∧
     (b.map_components f).state.rpc = b.state.rpc ∧
     (b.map_components f).state.exexs = b.state.exexs ∧
     (b.map_components f).state.components_builder = f b.state.components_builder) ∧
    ((b.install_exex x).config = b.config ∧
     (b.install_exex x).database = b.database ∧
     (b.install_exex x).state.types = b.state.types ∧
     (b.install_exex x).state.hooks = b.state.hooks ∧
     (b.install_exex x).state.rpc = b.state.rpc ∧
     (b.install_exex x).state.components_builder = b.state.components_builder ∧
     (b.install_exex x).state.exexs = b.state.exexs ++ [x]) ∧
    ((b.on_component_initialized h1).config = b.config ∧
     (b.on_component_initialized h1).database = b.database ∧
     (b.on_component_initialized h1).state.types = b.state.types ∧
     (b.on_component_initialized h1).state.components_builder = b.state.components_builder ∧
     (b.on_component_initialized h1).state.exexs = b.state.exexs ∧
     (b.on_component_initialized h1).state.rpc = b.state.rpc) ∧
    ((b.on_node_started h2).config = b.config ∧
     (b.on_node_started h2).database = b.database ∧
     (b.on_node_started h2).state.types = b.state.types ∧
     (b.on_node_started h2).state.components_builder = b.state.components_builder ∧
     (b.on_node_started h2).state.exexs = b.state.exexs ∧
     (b.on_node_started h2).state.rpc = b.state.rpc) ∧
    ((b.on_rpc_started h3).config = b.config ∧
     (b.on_rpc_started h3).database = b.database ∧
     (b.on_rpc_started h3).state.types = b.state.types ∧
     (b.on_rpc_started h3).state.components_builder = b.state.components_builder ∧
     (b.on_rpc_started h3).state.exexs = b.state.exexs ∧
     (b.on_rpc_started h3).state.hooks = b.state.hooks) ∧
    ((b.extend_rpc_modules h4).config = b.config ∧
     (b.extend_rpc_modules h4).database = b.database ∧
     (b.extend_rpc_modules h4).state.types = b.state.types ∧
     (b.extend_rpc_modules h4).state.components_builder = b.state.components_builder ∧
     (b.extend_rpc_modules h4).state.exexs = b.state.exexs ∧
     (b.extend_rpc_modules h4).state.hooks = b.state.hooks) ∧
    (((AnyBuilder.componentsBound b).tryRegister op).map AnyBuilder.stage =
      some .componentsBound) :=
  ⟨⟨rfl, rfl, rfl, rfl, rfl, rfl, rfl⟩, ⟨rfl, rfl, rfl, rfl, rfl, rfl, rfl⟩,
   ⟨rfl, rfl, rfl, rfl, rfl, rfl⟩, ⟨rfl, rfl, rfl, rfl, rfl, rfl⟩,
   ⟨rfl, rfl, rfl, rfl, rfl, rfl⟩, ⟨rfl, rfl, rfl, rfl, rfl, rfl⟩, rfl⟩

/-- Claim C9: `load_config` reads the builder's configuration but leaves the
builder — in particular its config and database — unchanged, for every builder
state and every outcome of the external config load. -/
theorem load_config_preserves_builder (b : NodeBuilder DB State) (d : DataDir)
    (confy_load : ConfigPath → Except LoadErr RethConfig) :
    (b.load_config d confy_load).1 = b ∧
    (b.load_config d confy_load).1.config = b.config ∧
    (b.load_config d confy_load).1.database = b.database := by
  have hfst : (b.load_config d confy_load).1 = b := by
    simp only [NodeBuilder.load_config]
    split <;> rfl
  exact ⟨hfst, by rw [hfst], by rw [hfst]⟩

/-- Claim C3: for every successful launch the four lifecycle hooks fire in the
fixed order — component-initialized, then rpc-extend, then rpc-started, then
node-started — each at most once per launch: the hook subtrace is exactly the
registered slots of the firing order, hence a sublist of the (duplicate-free)
firing order. -/
theorem hook_firing_order (buildResult : Except BuildErr Unit)
    (hooks : NodeHooks HookOutcome) (rpc : RpcHooks HookOutcome)
    (exexs : List (Except ExtErr Unit))
    (h : (defaultLaunch buildResult hooks rpc exexs).2 = .ok ()) :
    hookTrace (defaultLaunch buildResult hooks rpc exexs).1 =
      firingOrder.filter (fun s => (slotCallback hooks rpc s).isSome) ∧
    List.Sublist (hookTrace (defaultLaunch buildResult hooks rpc exexs).1)
      firingOrder := by
  cases buildResult with
  | error e => simp [defaultLaunch] at h
  | ok u =>
    cases hp : (runHooks (slotCallback hooks rpc) firingOrder).2 with
    | some e => simp [defaultLaunch, hp] at h
    | none =>
      have ht := runHooks_trace_of_no_error (slotCallback hooks rpc) firingOrder hp
      have htr : (defaultLaunch (.ok u) hooks rpc exexs).1 =
          (runHooks (slotCallback hooks rpc) firingOrder).1 ++
            (List.range exexs.length).map Ev.exSpawned := by
        simp [defaultLaunch, hp]
      have hmain : hookTrace (defaultLaunch (.ok u) hooks rpc exexs).1 =
          firingOrder.filter (fun s => (slotCallback hooks rpc s).isSome) := by
        rw [htr, hookTrace_append, hookTrace_map_exSpawned, List.append_nil, ht,
          hookTrace_map_hookFired]
      refine ⟨hmain, ?_⟩
      rw [hmain]
      exact List.filter_sublist firingOrder

/-- Witness for C3: with component-initialized and rpc-extend registered as
succeeding callbacks and the other slots empty, the launch succeeds and the
hook subtrace is exactly the registered slots in firing order. -/
theorem hook_firing_order_witness :
    hookTrace (defaultLaunch (.ok ()) ⟨some (.ok ()), none⟩ ⟨none, some (.ok ())⟩ []).1 =
      firingOrder.filter (fun s =>
        (slotCallback ⟨some (.ok ()), none⟩ ⟨none, some (.ok ())⟩ s).isSome) :=
  (hook_firing_order (.ok ()) ⟨some (.ok ()), none⟩ ⟨none, some (.ok ())⟩ [] rfl).1

/-- Claim C5: each lifecycle event slot holds at most one callback (an
`Option` slot), and after any sequence of registrations through the builder
methods the callback held for an event is exactly the last one registered for
that event (falling back to the prior holder when the sequence never touches
the event). -/
theorem hook_registration_last_writer_wins
    (b : NodeBuilder DB (ComponentsState T C H E)) (regs : List (Slot × H))
    (e : Slot) :
    getHook (applyHookRegs b regs) e =
      ((regs.reverse.find? fun p => p.1 == e).map Prod.snd).or (getHook b e) := by
  induction regs generalizing b with
  | nil => simp [applyHookRegs]
  | cons r rs ih =>
    obtain ⟨s, h⟩ := r
    have hstep : applyHookRegs b ((s, h) :: rs) =
        applyHookRegs (applyHookReg b (s, h)) rs := rfl
    rw [hstep, ih, List.reverse_cons, List.find?_append, getHook_applyHookReg]
    cases hfind : rs.reverse.find? fun p => p.1 == e with
    | some q => simp [hfind]
    | none =>
      by_cases hse : s = e
      · subst hse
        simp [hfind, List.find?]
      · have hbe : (s == e) = false := beq_eq_false_iff_ne.mpr hse
        simp [hfind, List.find?, hbe]
        exact fun hc => absurd hc hse

/-- Claim C4: if the first erroring hook callback sits at slot `s`, the launch
returns that error, no hook after `s` in the firing order is invoked, and no
extension is spawned (the remainder of the launch is aborted); and whenever no
registered callback errors, empty slots are skipped as no-ops and the launch
succeeds. -/
theorem hook_error_aborts_launch (hooks : NodeHooks HookOutcome)
    (rpc : RpcHooks HookOutcome) (exexs : List (Except ExtErr Unit))
    (s : Slot) (e : HookErr)
    (hs : slotCallback hooks rpc s = some (.error e))
    (hbefore : ∀ s' ∈ slotsBefore s, ∀ e',
      slotCallback hooks rpc s' ≠ some (.error e')) :
    (defaultLaunch (.ok ()) hooks rpc exexs).2 = .error (.hook e) ∧
    (∀ s' ∈ slotsAfter s,
      Ev.hookFired s' ∉ (defaultLaunch (.ok ()) hooks rpc exexs).1) ∧
    (∀ i, Ev.exSpawned i ∉ (defaultLaunch (.ok ()) hooks rpc exexs).1) ∧
    (∀ (hooks2 : NodeHooks HookOutcome) (rpc2 : RpcHooks HookOutcome),
      (∀ s2 e2, slotCallback hooks2 rpc2 s2 ≠ some (.error e2)) →
      (defaultLaunch (.ok ()) hooks2 rpc2 exexs).2 = .ok ()) := by
  have hskip : ∀ (hooks2 : NodeHooks HookOutcome) (rpc2 : RpcHooks HookOutcome),
      (∀ s2 e2, slotCallback hooks2 rpc2 s2 ≠ some (.error e2)) →
      (defaultLaunch (.ok ()) hooks2 rpc2 exexs).2 = .ok () :=
    fun hooks2 rpc2 h2 => launch_ok_of_no_error hooks2 rpc2 exexs h2
  cases s with
  | componentInitialized =>
    refine ⟨?_, ?_, ?_, hskip⟩ <;>
      simp [defaultLaunch, runHooks, firingOrder, hs, slotsAfter]
  | rpcExtend =>
    have hci := hookOutcome_shape (slotCallback hooks rpc .componentInitialized)
      (hbefore .componentInitialized (by simp [slotsBefore]))
    rcases hci with h1 | h1 <;>
      (refine ⟨?_, ?_, ?_, hskip⟩ <;>
        simp [defaultLaunch, runHooks, firingOrder, hs, h1, slotsAfter])
  | rpcStarted =>
    have hci := hookOutcome_shape (slotCallback hooks rpc .componentInitialized)
      (hbefore .componentInitialized (by simp [slotsBefore]))
    have hre := hookOutcome_shape (slotCallback hooks rpc .rpcExtend)
      (hbefore .rpcExtend (by simp [slotsBefore]))
    rcases hci with h1 | h1 <;> rcases hre with h2 | h2 <;>
      (refine ⟨?_, ?_, ?_, hskip⟩ <;>
        simp [defaultLaunch, runHooks, firingOrder, hs, h1, h2, slotsAfter])
  | nodeStarted =>
    have hci := hookOutcome_shape (slotCallback hooks rpc .componentInitialized)
      (hbefore .componentInitialized (by simp [slotsBefore]))
    have hre := hookOutcome_shape (slotCallback hooks rpc .rpcExtend)
      (hbefore .rpcExtend (by simp [slotsBefore]))
    have hrs := hookOutcome_shape (slotCallback hooks rpc .rpcStarted)
      (hbefore .rpcStarted (by simp [slotsBefore]))
    rcases hci with h1 | h1 <;> rcases hre with h2 | h2 <;> rcases hrs with h3 | h3 <;>
      (refine ⟨?_, ?_, ?_, hskip⟩ <;>
        simp [defaultLaunch, runHooks, firingOrder, hs, h1, h2, h3, slotsAfter])

/-- Witness for C4: with a failing rpc-extend callback and succeeding earlier
callbacks, the launch returns that hook error even though an extension was
registered. -/
theorem hook_error_aborts_launch_witness :
    (defaultLaunch (.ok ()) ⟨some (.ok ()), some (.ok ())⟩
        ⟨some (.ok ()), some (.error 7)⟩ [.error 3]).2 = .error (.hook 7) :=
  (hook_error_aborts_launch ⟨some (.ok ()), some (.ok ())⟩
    ⟨some (.ok ()), some (.error 7)⟩ [.error 3] .rpcExtend 7 rfl
    (by
      intro s' hmem e'
      simp [slotsBefore] at hmem
      subst hmem
      simp [slotCallback])).1

/-- Claim C6: on every successful launch the trace is the registered hook
firings followed by exactly one spawn per registered extension, in registration
order (`install_exex` appends, so list order is registration order); every
extension is spawned exactly once, after the node-started slot (all spawn
events follow all hook firings); and the launch outcome and spawn behaviour do
not depend on the extensions' setup outcomes, so one extension's setup failure
never causes another extension to be skipped. -/
theorem extensions_spawned_in_order (buildResult : Except BuildErr Unit)
    (hooks : NodeHooks HookOutcome) (rpc : RpcHooks HookOutcome)
    (exexs : List (Except ExtErr Unit))
    (h : (defaultLaunch buildResult hooks rpc exexs).2 = .ok ()) :
    (defaultLaunch buildResult hooks rpc exexs).1 =
      (firingOrder.filter fun s => (slotCallback hooks rpc s).isSome).map Ev.hookFired
        ++ (List.range exexs.length).map Ev.exSpawned ∧
    (∀ i, i < exexs.length →
      (defaultLaunch buildResult hooks rpc exexs).1.count (Ev.exSpawned i) = 1) ∧
    (∀ exexs2 : List (Except ExtErr Unit), exexs2.length = exexs.length →
      defaultLaunch buildResult hooks rpc exexs2 =
        defaultLaunch buildResult hooks rpc exexs) := by
  have hindep : ∀ exexs2 : List (Except ExtErr Unit),
      exexs2.length = exexs.length →
      defaultLaunch buildResult hooks rpc exexs2 =
        defaultLaunch buildResult hooks rpc exexs := by
    intro exexs2 hlen
    cases buildResult with
    | error e => rfl
    | ok u =>
      cases hp : (runHooks (slotCallback hooks rpc) firingOrder).2 <;>
        simp [defaultLaunch, hp, hlen]
  cases buildResult with
  | error e => simp [defaultLaunch] at h
  | ok u =>
    cases hp : (runHooks (slotCallback hooks rpc) firingOrder).2 with
    | some e2 => simp [defaultLaunch, hp] at h
    | none =>
      have ht := runHooks_trace_of_no_error (slotCallback hooks rpc) firingOrder hp
      have htr : (defaultLaunch (.ok u) hooks rpc exexs).1 =
          (firingOrder.filter fun s => (slotCallback hooks rpc s).isSome).map
              Ev.hookFired
            ++ (List.range exexs.length).map Ev.exSpawned := by
        simp [defaultLaunch, hp, ht]
      refine ⟨htr, ?_, hindep⟩
      intro i hi
      rw [htr, List.count_append]
      have hz : ((firingOrder.filter fun s =>
          (slotCallback hooks rpc s).isSome).map Ev.hookFired).count
            (Ev.exSpawned i) = 0 := by
        rw [List.count_eq_zero]
        simp
      have ho : ((List.range exexs.length).map Ev.exSpawned).count
          (Ev.exSpawned i) = 1 := by
        apply List.count_eq_one_of_mem
        · exact List.Nodup.map (fun a b hab => by injection hab)
            (List.nodup_range _)
        · exact List.mem_map_of_mem _ (List.mem_range.mpr hi)
      rw [hz, ho]

/-- Witness for C6: two extensions, the second with a failing setup; the launch
still succeeds and both are spawned in registration order after all hooks. -/
theorem extensions_spawned_in_order_witness :
    (defaultLaunch (.ok ()) ⟨some (.ok ()), some (.ok ())⟩
        ⟨some (.ok ()), some (.ok ())⟩ [.ok (), .error 5]).1 =
      (firingOrder.filter fun s =>
        (slotCallback ⟨some (.ok ()), some (.ok ())⟩
          ⟨some (.ok ()), some (.ok ())⟩ s).isSome).map Ev.hookFired
        ++ (List.range 2).map Ev.exSpawned :=
  (extensions_spawned_in_order (.ok ()) ⟨some (.ok ()), some (.ok ())⟩
    ⟨some (.ok ()), some (.ok ())⟩ [.ok (), .error 5] rfl).1

/-- Claim C10: `check_launch` is the identity on both the plain builder and the
`WithLaunchContext` variant; it performs no runtime validation. -/
theorem check_launch_identity (b : NodeBuilder DB (ComponentsState T C H E))
    (w : WithLaunchContext DB (ComponentsState T C H E)) :
    b.check_launch = b ∧ w.check_launch = w :=
  ⟨rfl, rfl⟩

end Reth
